import Mathlib

/-!
Verification of the Personal Finance Tracker core (finance.py):
the Transaction / RecurringTransaction record model, the CSV
persistence round-trip of FinanceManager, its search queries, and the
Budget evaluator.  Python datetimes are embedded as a seven-field
structure (year 1..9999 as in CPython), Python floats as rationals
(CPython float-to-text round-trips are exact, so arithmetic and
comparisons transfer), and raised exceptions as Except / Option.
-/

namespace FinanceTracker

/-- Embedding of a Python `datetime.datetime` value: seven integer fields.
CPython restricts year to 1..9999 (MINYEAR..MAXYEAR); that bound is kept
where the source can hit it (`replace`, timedelta addition). -/
structure Timestamp where
  year : ℕ
  month : ℕ
  day : ℕ
  hour : ℕ
  minute : ℕ
  second : ℕ
  microsecond : ℕ
deriving DecidableEq, Repr

/-- Gregorian leap-year rule, as used by `datetime`. -/
def isLeapYear (y : ℕ) : Bool :=
  (y % 4 == 0 && y % 100 != 0) || y % 400 == 0

/-- Number of days in a month of a given year, as used by `datetime`. -/
def daysInMonth (y m : ℕ) : ℕ :=
  if m = 2 then (if isLeapYear y then 29 else 28)
  else if m = 4 ∨ m = 6 ∨ m = 9 ∨ m = 11 then 30
  else 31

/-- The invariant every constructed `datetime.datetime` satisfies. -/
def Timestamp.Valid (t : Timestamp) : Prop :=
  1 ≤ t.year ∧ t.year ≤ 9999 ∧
  1 ≤ t.month ∧ t.month ≤ 12 ∧
  1 ≤ t.day ∧ t.day ≤ daysInMonth t.year t.month ∧
  t.hour ≤ 23 ∧ t.minute ≤ 59 ∧ t.second ≤ 59 ∧ t.microsecond ≤ 999999

instance (t : Timestamp) : Decidable t.Valid := by
  unfold Timestamp.Valid; infer_instance

/-- Chronological strict order on datetimes (Python compares datetimes
field-lexicographically). -/
def Timestamp.Lt (a b : Timestamp) : Prop :=
  a.year < b.year ∨ (a.year = b.year ∧
    (a.month < b.month ∨ (a.month = b.month ∧
      (a.day < b.day ∨ (a.day = b.day ∧
        (a.hour < b.hour ∨ (a.hour = b.hour ∧
          (a.minute < b.minute ∨ (a.minute = b.minute ∧
            (a.second < b.second ∨ (a.second = b.second ∧
              a.microsecond < b.microsecond)))))))))))

instance (a b : Timestamp) : Decidable (a.Lt b) := by
  unfold Timestamp.Lt; infer_instance

/-- Successor day of a datetime (time-of-day unchanged), `none` past
`datetime.max` (9999-12-31).  Building block for timedelta addition. -/
def Timestamp.nextDay (t : Timestamp) : Option Timestamp :=
  if t.day < daysInMonth t.year t.month then some { t with day := t.day + 1 }
  else if t.month < 12 then some { t with month := t.month + 1, day := 1 }
  else if t.year < 9999 then some { t with year := t.year + 1, month := 1, day := 1 }
  else none

/-- Embedding of `t + timedelta(days=n)`: n-fold day successor; `none`
models the OverflowError CPython raises past `datetime.max`. -/
def Timestamp.addDays : Timestamp → ℕ → Option Timestamp
  | t, 0 => some t
  | t, n + 1 => (t.nextDay).bind (fun u => u.addDays n)

/-- Embedding of `t.replace(year=y, month=m)`: keeps every other field,
`none` models the ValueError CPython raises when the resulting date is
invalid (day out of range for the month, or year/month out of range). -/
def Timestamp.replaceYM (t : Timestamp) (y m : ℕ) : Option Timestamp :=
  if 1 ≤ m ∧ m ≤ 12 ∧ 1 ≤ y ∧ y ≤ 9999 ∧ t.day ≤ daysInMonth y m then
    some { t with year := y, month := m }
  else none

/-- Embedding of a `Transaction` object after construction: the five
private attributes.  Amounts are rationals standing for Python floats. -/
structure Transaction where
  amount : ℚ
  description : String
  category : String
  type : String
  timestamp : Timestamp
deriving DecidableEq, Repr

/-- Embedding of `Transaction.__init__`: validation then field storage.
The Python default `timestamp=None` plus `datetime.now()` capture is made
explicit by the `now` parameter (used only when no timestamp is given). -/
def Transaction.construct (amount : ℚ) (description category transaction_type : String)
    (timestamp : Option Timestamp) (now : Timestamp) : Except String Transaction :=
  if amount ≤ 0 then .error "Amount must be positive"
  else if transaction_type ∉ ["income", "expense"] then
    .error "Transaction type must be income or expense"
  else .ok ⟨amount, description, category, transaction_type, timestamp.getD now⟩

/-- Embedding of a `RecurringTransaction` object: the inherited
`Transaction` part plus the two extra private attributes. -/
structure RecurringTransaction where
  toTransaction : Transaction
  frequency : String
  next_occurrence : Timestamp
deriving DecidableEq, Repr

/-- The pair (next_year, next_month) computed by
`_calculate_next_occurrence` for the monthly case: month + 1, rolling
month 13 over to month 1 of the following year. -/
def monthRollover (y m : ℕ) : ℕ × ℕ :=
  if m + 1 > 12 then (y + 1, 1) else (y, m + 1)

/-- Embedding of `RecurringTransaction._calculate_next_occurrence`.
Python returns `None` implicitly on an unknown frequency (unreachable
after validation); `none` also models the exceptions raised inside the
date arithmetic (timedelta overflow, `replace` ValueError). -/
def calculateNextOccurrence (frequency : String) (t : Timestamp) : Option Timestamp :=
  if frequency = "daily" then t.addDays 1
  else if frequency = "weekly" then t.addDays 7
  else if frequency = "monthly" then
    t.replaceYM (monthRollover t.year t.month).1 (monthRollover t.year t.month).2
  else none

/-- Embedding of `RecurringTransaction.__init__`: parent validation
first, then the frequency check, then the next-occurrence derivation
(whose date arithmetic can itself raise). -/
def RecurringTransaction.construct (amount : ℚ)
    (description category transaction_type frequency : String)
    (timestamp : Option Timestamp) (now : Timestamp) :
    Except String RecurringTransaction :=
  match Transaction.construct amount description category transaction_type timestamp now with
  | .error e => .error e
  | .ok base =>
    if frequency ∉ ["daily", "weekly", "monthly"] then
      .error "Frequency must be daily, weekly, or monthly"
    else
      match calculateNextOccurrence frequency base.timestamp with
      | some nxt => .ok ⟨base, frequency, nxt⟩
      | none => .error "next occurrence out of range"

/-- A record held by the ledger: either a plain `Transaction` or a
`RecurringTransaction` (the source relies on subclass polymorphism; the
embedding uses a closed sum). -/
inductive Record
  | plain : Transaction → Record
  | recurring : RecurringTransaction → Record
deriving DecidableEq, Repr

/-- The `Transaction` part of a record (the base-class view Python
dispatches through). -/
def Record.base : Record → Transaction
  | .plain t => t
  | .recurring r => r.toTransaction

def Record.amount (r : Record) : ℚ := r.base.amount

def Record.category (r : Record) : String := r.base.category

def Record.description (r : Record) : String := r.base.description

/-- A record is well formed when it could only have come out of its own
constructor: the validated conditions of `Transaction.__init__` (and of
`RecurringTransaction.__init__`, with `next_occurrence` equal to the
derivation from timestamp and frequency). -/
def Record.wf : Record → Prop
  | .plain t => 0 < t.amount ∧ t.type ∈ ["income", "expense"]
  | .recurring r =>
      (0 < r.toTransaction.amount ∧ r.toTransaction.type ∈ ["income", "expense"]) ∧
      r.frequency ∈ ["daily", "weekly", "monthly"] ∧
      calculateNextOccurrence r.frequency r.toTransaction.timestamp = some r.next_occurrence

instance (r : Record) : Decidable r.wf := by
  cases r <;> (unfold Record.wf; infer_instance)

/-- One CSV field.  The `csv` module round-trips every field string
exactly, CPython round-trips `float(str(x)) = x` and
`fromisoformat(t.isoformat()) = t` exactly, so a field is embedded as
its typed payload rather than its textual image: `num q` stands for the
string `str(q)` and `ts t` for the string `t.isoformat()`. -/
inductive Cell
  | str : String → Cell
  | num : ℚ → Cell
  | ts : Timestamp → Cell
deriving DecidableEq, Repr

/-- Embedding of `Transaction.to_csv_row`:
`[timestamp.isoformat(), type, amount, category, description]`. -/
def Transaction.to_csv_row (t : Transaction) : List Cell :=
  [.ts t.timestamp, .str t.type, .num t.amount, .str t.category, .str t.description]

/-- Embedding of the polymorphic `to_csv_row` call: the recurring
override appends the frequency as a trailing field. -/
def Record.to_csv_row : Record → List Cell
  | .plain t => t.to_csv_row
  | .recurring r => r.toTransaction.to_csv_row ++ [.str r.frequency]

/-- Embedding of `FinanceManager.save_to_file`: the header row followed
by one row per transaction in insertion order (the whole file is
rewritten; the in-memory list is untouched). -/
def save_to_file (transactions : List Record) : List (List Cell) :=
  ([.str "timestamp", .str "type", .str "amount", .str "category",
    .str "description", .str "frequency"] : List Cell)
    :: transactions.map Record.to_csv_row

/-- Embedding of one iteration of the `_load_from_file` loop: parse the
five fixed fields, then reconstruct a `RecurringTransaction` exactly
when the row has a sixth, truthy (non-empty) field, else a plain
`Transaction`.  A field of the wrong shape is the exception
`float(...)` / `fromisoformat(...)` would raise.  The explicit timestamp
is always supplied, so the `now` argument of the constructors is
irrelevant; the parsed timestamp is passed for it. -/
def parseRow (row : List Cell) : Except String Record :=
  match row with
  | .ts timestamp :: .str transaction_type :: .num amount ::
      .str category :: .str description :: rest =>
    match rest with
    | [] =>
        (Transaction.construct amount description category transaction_type
          (some timestamp) timestamp).map .plain
    | .str frequency :: _ =>
        if frequency ≠ "" then
          (RecurringTransaction.construct amount description category
            transaction_type frequency (some timestamp) timestamp).map .recurring
        else
          (Transaction.construct amount description category transaction_type
            (some timestamp) timestamp).map .plain
    | _ => .error "could not parse frequency field"
  | _ => .error "could not parse row"

/-- The `_load_from_file` loop over the data rows: appends each
reconstructed record; the first exception aborts the loop (the `try`
wraps it), leaving the records accumulated so far. -/
def loadRows : List (List Cell) → List Record → List Record
  | [], acc => acc
  | row :: rest, acc =>
    match parseRow row with
    | .ok record => loadRows rest (acc ++ [record])
    | .error _ => acc

/-- Embedding of `FinanceManager._load_from_file` on an existing file:
skip the header row, then run the parsing loop starting from the empty
transaction list a fresh manager holds. -/
def load_from_file (rows : List (List Cell)) : List Record :=
  match rows with
  | [] => []
  | _header :: dataRows => loadRows dataRows []

/-- Argument passed to `add_transaction`: either an actual transaction
record or any other Python object (= not an instance of `Transaction`). -/
inductive AddArg
  | tx : Record → AddArg
  | notATransaction : AddArg
deriving DecidableEq, Repr

/-- Embedding of `FinanceManager.add_transaction`: append when the
argument is a `Transaction` instance, raise TypeError otherwise (the
list is returned unchanged by the raise, so the state is untouched). -/
def add_transaction (transactions : List Record) (arg : AddArg) :
    Except String (List Record) :=
  match arg with
  | .tx t => .ok (transactions ++ [t])
  | .notATransaction => .error "Expected Transaction object"

/-- Embedding of Python `str.lower()`: lower-case every character. -/
def lowered (s : String) : String :=
  ⟨s.data.map Char.toLower⟩

/-- Embedding of `FinanceManager.search_by_category`: case-insensitive
exact equality on the category. -/
def search_by_category (transactions : List Record) (category : String) : List Record :=
  transactions.filter (fun t => lowered t.category == lowered category)

/-- Embedding of `FinanceManager.search_by_amount_range`: the chained
comparison `min_amount <= t.amount <= max_amount`, inclusive on both
bounds. -/
def search_by_amount_range (transactions : List Record)
    (min_amount max_amount : ℚ) : List Record :=
  transactions.filter (fun t => min_amount ≤ t.amount ∧ t.amount ≤ max_amount)

/-- Embedding of a `Budget` object: the monthly limit and the
per-category limits. -/
structure Budget where
  monthly_limit : ℚ
  categories : List (String × ℚ)
deriving DecidableEq, Repr

/-- Embedding of `Budget.__init__`: stores the given limit (default 0.0)
with no validation, and an empty category map. -/
def Budget.init (monthly_limit : ℚ) : Budget :=
  ⟨monthly_limit, []⟩

/-- Embedding of `Budget.set_monthly_limit`: rejects a negative limit
with ValueError, otherwise stores it. -/
def Budget.set_monthly_limit (b : Budget) (limit : ℚ) : Except String Budget :=
  if limit < 0 then .error "Budget limit cannot be negative"
  else .ok { b with monthly_limit := limit }

/-- Result of `Budget.check_budget_status`.  The source returns a
formatted string; the embedding abstracts the `f`-string formatting into
the data it interpolates: the classification text, and for a set budget
the expense amount, the limit and the percentage. -/
inductive BudgetStatus
  | notSet
  | report (status : String) (expenses limit percentage : ℚ)
deriving DecidableEq, Repr

/-- Embedding of `Budget.check_budget_status`: the `limit == 0` guard
first, then the percentage and the three-way classification. -/
def Budget.check_budget_status (b : Budget) (current_expenses : ℚ) : BudgetStatus :=
  if b.monthly_limit = 0 then .notSet
  else
    let percentage := current_expenses / b.monthly_limit * 100
    let status :=
      if percentage ≤ 70 then "Within budget"
      else if percentage ≤ 90 then "Approaching limit"
      else "Over budget"
    .report status current_expenses b.monthly_limit percentage

/-- Division returning `none` on a zero divisor: the evaluation of
`current_expenses / self._monthly_limit` with the ZeroDivisionError it
would raise made explicit. -/
def divChecked (a b : ℚ) : Option ℚ :=
  if b = 0 then none else some (a / b)

/-- The body of `check_budget_status` with its division routed through
`divChecked`, so that a division by zero would surface as `none`. -/
def Budget.check_budget_status_checked (b : Budget) (current_expenses : ℚ) :
    Option BudgetStatus :=
  if b.monthly_limit = 0 then some .notSet
  else
    (divChecked current_expenses b.monthly_limit).map (fun q =>
      let percentage := q * 100
      let status :=
        if percentage ≤ 70 then "Within budget"
        else if percentage ≤ 90 then "Approaching limit"
        else "Over budget"
      .report status current_expenses b.monthly_limit percentage)

/-! Helper lemmas about the chronological order. -/

deriving instance DecidableEq for Except

theorem Timestamp.Lt.trans {a b c : Timestamp} (h1 : a.Lt b) (h2 : b.Lt c) : a.Lt c := by
  unfold Timestamp.Lt at *; omega

theorem Timestamp.nextDay_lt {t u : Timestamp} (h : t.nextDay = some u) : t.Lt u := by
  unfold Timestamp.nextDay at h
  split_ifs at h with h1 h2 h3 <;> simp only [Option.some.injEq] at h <;>
    subst h <;> unfold Timestamp.Lt <;> simp

theorem Timestamp.addDays_lt {n : ℕ} (hn : 0 < n) :
    ∀ {t u : Timestamp}, t.addDays n = some u → t.Lt u := by
  induction n with
  | zero => omega
  | succ n ih =>
    intro t u h
    unfold Timestamp.addDays at h
    cases hv : t.nextDay with
    | none => simp [hv] at h
    | some v =>
      simp only [hv, Option.some_bind] at h
      cases n with
      | zero =>
        unfold Timestamp.addDays at h
        simp only [Option.some.injEq] at h
        subst h
        exact Timestamp.nextDay_lt hv
      | succ m =>
        exact (Timestamp.nextDay_lt hv).trans (ih (by omega) h)

/-! Claim theorems. -/

/-- C4: for every `Budget`, `check_budget_status` reports "not set" when
the monthly limit is 0; otherwise, with
percentage = current_expenses / monthly_limit * 100, it reports the
"Within budget" classification when percentage ≤ 70, "Approaching limit"
when 70 < percentage ≤ 90, and "Over budget" when percentage > 90,
together with the expense amount, the limit and the percentage. -/
theorem check_budget_status_spec (b : Budget) (current_expenses : ℚ) :
    (b.monthly_limit = 0 → b.check_budget_status current_expenses = .notSet) ∧
    (b.monthly_limit ≠ 0 →
      (current_expenses / b.monthly_limit * 100 ≤ 70 →
        b.check_budget_status current_expenses =
          .report "Within budget" current_expenses b.monthly_limit
            (current_expenses / b.monthly_limit * 100)) ∧
      (70 < current_expenses / b.monthly_limit * 100 →
        current_expenses / b.monthly_limit * 100 ≤ 90 →
        b.check_budget_status current_expenses =
          .report "Approaching limit" current_expenses b.monthly_limit
            (current_expenses / b.monthly_limit * 100)) ∧
      (90 < current_expenses / b.monthly_limit * 100 →
        b.check_budget_status current_expenses =
          .report "Over budget" current_expenses b.monthly_limit
            (current_expenses / b.monthly_limit * 100))) := by
  unfold Budget.check_budget_status
  refine ⟨fun h0 => by rw [if_pos h0], fun hne => ⟨fun h1 => ?_, fun h2a h2b => ?_, fun h3 => ?_⟩⟩
  · rw [if_neg hne]
    simp only [if_pos h1]
  · rw [if_neg hne]
    simp only [if_neg (by linarith : ¬ current_expenses / b.monthly_limit * 100 ≤ 70),
      if_pos h2b]
  · rw [if_neg hne]
    simp only [if_neg (by linarith : ¬ current_expenses / b.monthly_limit * 100 ≤ 70),
      if_neg (by linarith : ¬ current_expenses / b.monthly_limit * 100 ≤ 90)]

/-- Witness for C4: the spec scenario Budget(1000).check_status(950) is
classified over budget at 95%. -/
theorem check_budget_status_spec_witness :
    (Budget.init 1000).check_budget_status 950 =
      .report "Over budget" 950 1000 (950 / 1000 * 100) :=
  ((check_budget_status_spec (Budget.init 1000) 950).2 (by norm_num [Budget.init])).2.2
    (by norm_num [Budget.init])

/-- C5: the division inside `check_budget_status` is evaluated only
under the limit-is-nonzero guard: the variant whose division reports a
zero divisor explicitly always succeeds and agrees with the original, so
`check_budget_status` never divides by zero. -/
theorem check_budget_status_division_safe (b : Budget) (current_expenses : ℚ) :
    b.check_budget_status_checked current_expenses =
      some (b.check_budget_status current_expenses) := by
  by_cases h : b.monthly_limit = 0
  · simp [Budget.check_budget_status_checked, Budget.check_budget_status, h]
  · simp [Budget.check_budget_status_checked, Budget.check_budget_status, divChecked, h]

/-- C6: `add_transaction` appends a `Transaction` argument (plain or
recurring) at the end, leaving all earlier records unchanged, and raises
TypeError on a non-Transaction argument, leaving the ledger unchanged. -/
theorem add_transaction_spec (transactions : List Record) (arg : AddArg) :
    (∀ r, arg = .tx r →
      add_transaction transactions arg = .ok (transactions ++ [r]) ∧
      (transactions ++ [r]).take transactions.length = transactions ∧
      (transactions ++ [r]).length = transactions.length + 1) ∧
    (arg = .notATransaction →
      add_transaction transactions arg = .error "Expected Transaction object") := by
  constructor
  · rintro r rfl
    exact ⟨rfl, by simp, by simp⟩
  · rintro rfl
    rfl

/-- Witness for C6: adding a record to the empty ledger yields the
one-record ledger, and adding a non-Transaction raises. -/
theorem add_transaction_spec_witness :
    add_transaction []
        (.tx (.plain ⟨100, "Salary", "Income", "income", ⟨2024, 1, 1, 0, 0, 0, 0⟩⟩)) =
      .ok [.plain ⟨100, "Salary", "Income", "income", ⟨2024, 1, 1, 0, 0, 0, 0⟩⟩] ∧
    add_transaction ([] : List Record) .notATransaction =
      .error "Expected Transaction object" :=
  ⟨((add_transaction_spec [] _).1 _ rfl).1, (add_transaction_spec [] _).2 rfl⟩

/-- C7: `search_by_amount_range` returns exactly the records whose
amount lies between the two bounds inclusively, in the ledger's original
order (a sublist of the ledger), and does not modify the ledger (it is a
pure filter). -/
theorem search_by_amount_range_spec (transactions : List Record)
    (min_amount max_amount : ℚ) :
    (search_by_amount_range transactions min_amount max_amount).Sublist transactions ∧
    ∀ r, r ∈ search_by_amount_range transactions min_amount max_amount ↔
      r ∈ transactions ∧ min_amount ≤ r.amount ∧ r.amount ≤ max_amount := by
  refine ⟨List.filter_sublist _, fun r => ?_⟩
  simp [search_by_amount_range, List.mem_filter, and_assoc]

/-- C8: `search_by_category` returns exactly the records whose category
equals the query up to lower-casing (exact match, not substring), in the
ledger's original order; in particular a record stored with category
"Food" is found by the query "food". -/
theorem search_by_category_spec (transactions : List Record) (category : String) :
    (search_by_category transactions category).Sublist transactions ∧
    (∀ r, r ∈ search_by_category transactions category ↔
      r ∈ transactions ∧ lowered r.category = lowered category) ∧
    (∀ r ∈ transactions, r.category = "Food" →
      r ∈ search_by_category transactions "food") := by
  refine ⟨List.filter_sublist _, fun r => ?_, fun r hr hFood => ?_⟩
  · simp [search_by_category, List.mem_filter]
  · simp only [search_by_category, List.mem_filter]
    exact ⟨hr, by rw [hFood]; decide⟩

/-- Witness for C8: the query "food" finds a record stored with
category "Food". -/
theorem search_by_category_spec_witness :
    Record.plain ⟨12, "Lunch", "Food", "expense", ⟨2024, 3, 1, 12, 0, 0, 0⟩⟩ ∈
      search_by_category
        [Record.plain ⟨12, "Lunch", "Food", "expense", ⟨2024, 3, 1, 12, 0, 0, 0⟩⟩]
        "food" :=
  (search_by_category_spec
      [Record.plain ⟨12, "Lunch", "Food", "expense", ⟨2024, 3, 1, 12, 0, 0, 0⟩⟩]
      "food").2.2 _ (by simp) rfl

/-- C10: `Budget.__init__` stores any limit, negative included,
unchanged and without validation; only `set_monthly_limit` rejects a
negative limit; and with a negative stored limit `check_budget_status`
still computes its percentage report without error. -/
theorem budget_unvalidated_init (v current_expenses : ℚ) (b : Budget) :
    (Budget.init v).monthly_limit = v ∧
    (b.set_monthly_limit v = .error "Budget limit cannot be negative" ↔ v < 0) ∧
    (v < 0 → ∃ s, (Budget.init v).check_budget_status current_expenses =
      .report s current_expenses v (current_expenses / v * 100)) := by
  refine ⟨rfl, ?_, fun hv => ?_⟩
  · unfold Budget.set_monthly_limit
    split_ifs with h
    · simp [h]
    · simp [h]
  · have hne : (Budget.init v).monthly_limit ≠ 0 := by
      simpa [Budget.init] using ne_of_lt hv
    unfold Budget.check_budget_status
    rw [if_neg hne]
    exact ⟨_, rfl⟩

/-- Witness for C10: a Budget constructed with limit -100 stores it and
produces a percentage report for expenses 50. -/
theorem budget_unvalidated_init_witness :
    (Budget.init (-100)).monthly_limit = -100 ∧
    ∃ s, (Budget.init (-100)).check_budget_status 50 =
      .report s 50 (-100) (50 / (-100) * 100) :=
  ⟨(budget_unvalidated_init (-100) 50 (Budget.init 0)).1,
    (budget_unvalidated_init (-100) 50 (Budget.init 0)).2.2 (by norm_num)⟩

/-- C2 counterexample: the claim as stated is false at daily cadence on
datetime.max (9999-12-31): amount 50 > 0, kind "expense" and cadence
"daily" are valid, yet construction fails because the next-occurrence
computation (timestamp + 1 day) overflows the representable date range
and raises. -/
theorem construct_validation_counterexample :
    (0 : ℚ) < 50 ∧ "expense" ∈ ["income", "expense"] ∧
    "daily" ∈ ["daily", "weekly", "monthly"] ∧
    RecurringTransaction.construct 50 "Backup" "Utilities" "expense" "daily"
      (some ⟨9999, 12, 31, 23, 0, 0, 0⟩) ⟨9999, 12, 31, 23, 0, 0, 0⟩ =
      .error "next occurrence out of range" := by
  refine ⟨by decide, by decide, by decide, ?_⟩
  decide

/-- C2 (amended): `Transaction` construction fails iff amount ≤ 0 or the
kind is invalid, and otherwise succeeds storing the arguments with an
explicit timestamp preserved exactly; `RecurringTransaction`
construction fails iff additionally the cadence is invalid or the
next-occurrence date computation raises (which happens exactly when it
would leave the representable datetime range, or, for monthly, when the
day is missing from the following month), and otherwise succeeds storing
the arguments. -/
theorem construct_validation_spec (amount : ℚ)
    (description category transaction_type frequency : String)
    (timestamp : Option Timestamp) (now : Timestamp) :
    ((∃ e, Transaction.construct amount description category transaction_type
        timestamp now = .error e) ↔
      amount ≤ 0 ∨ transaction_type ∉ ["income", "expense"]) ∧
    (0 < amount → transaction_type ∈ ["income", "expense"] →
      Transaction.construct amount description category transaction_type timestamp now =
        .ok ⟨amount, description, category, transaction_type, timestamp.getD now⟩) ∧
    ((∃ e, RecurringTransaction.construct amount description category transaction_type
        frequency timestamp now = .error e) ↔
      amount ≤ 0 ∨ transaction_type ∉ ["income", "expense"] ∨
      frequency ∉ ["daily", "weekly", "monthly"] ∨
      calculateNextOccurrence frequency (timestamp.getD now) = none) ∧
    (∀ nxt, 0 < amount → transaction_type ∈ ["income", "expense"] →
      frequency ∈ ["daily", "weekly", "monthly"] →
      calculateNextOccurrence frequency (timestamp.getD now) = some nxt →
      RecurringTransaction.construct amount description category transaction_type
        frequency timestamp now =
        .ok ⟨⟨amount, description, category, transaction_type, timestamp.getD now⟩,
          frequency, nxt⟩) := by
  have hbase : 0 < amount → transaction_type ∈ ["income", "expense"] →
      Transaction.construct amount description category transaction_type timestamp now =
        .ok ⟨amount, description, category, transaction_type, timestamp.getD now⟩ := by
    intro ha hty
    unfold Transaction.construct
    rw [if_neg (not_le.mpr ha), if_neg (not_not_intro hty)]
  refine ⟨?_, hbase, ?_, ?_⟩
  · unfold Transaction.construct
    split_ifs with h1 h2
    · simp [h1]
    · simp [h1, h2]
    · simp [h1, h2]
  · by_cases ha : amount ≤ 0
    · refine ⟨fun _ => Or.inl ha, fun _ => ?_⟩
      unfold RecurringTransaction.construct Transaction.construct
      rw [if_pos ha]
      exact ⟨_, rfl⟩
    · by_cases hty : transaction_type ∈ ["income", "expense"]
      · have hb := hbase (not_le.mp ha) hty
        by_cases hf : frequency ∈ ["daily", "weekly", "monthly"]
        · cases hc : calculateNextOccurrence frequency (timestamp.getD now) with
          | none =>
            refine ⟨fun _ => Or.inr (Or.inr (Or.inr rfl)), fun _ => ?_⟩
            simp only [RecurringTransaction.construct, hb,
              if_neg (not_not_intro hf), hc]
            exact ⟨_, rfl⟩
          | some nxt =>
            constructor
            · intro ⟨e, he⟩
              simp only [RecurringTransaction.construct, hb,
                if_neg (not_not_intro hf), hc] at he
              cases he
            · intro h
              rcases h with h | h | h | h
              · exact absurd h ha
              · exact absurd hty h
              · exact absurd hf h
              · cases h
        · refine ⟨fun _ => Or.inr (Or.inr (Or.inl hf)), fun _ => ?_⟩
          simp only [RecurringTransaction.construct, hb, if_pos hf]
          exact ⟨_, rfl⟩
      · refine ⟨fun _ => Or.inr (Or.inl hty), fun _ => ?_⟩
        unfold RecurringTransaction.construct Transaction.construct
        rw [if_neg ha, if_pos hty]
        exact ⟨_, rfl⟩
  · intro nxt ha hty hf hc
    simp only [RecurringTransaction.construct, hbase ha hty,
      if_neg (not_not_intro hf), hc]

/-- Witness for C2: a weekly recurring transaction on 2024-01-15
constructs successfully, stores its arguments, and derives 2024-01-22. -/
theorem construct_validation_spec_witness :
    RecurringTransaction.construct 100 "Rent" "Housing" "expense" "weekly"
      (some ⟨2024, 1, 15, 9, 0, 0, 0⟩) ⟨2024, 1, 15, 9, 0, 0, 0⟩ =
      .ok ⟨⟨100, "Rent", "Housing", "expense", ⟨2024, 1, 15, 9, 0, 0, 0⟩⟩,
        "weekly", ⟨2024, 1, 22, 9, 0, 0, 0⟩⟩ :=
  (construct_validation_spec 100 "Rent" "Housing" "expense" "weekly"
      (some ⟨2024, 1, 15, 9, 0, 0, 0⟩) ⟨2024, 1, 15, 9, 0, 0, 0⟩).2.2.2
    ⟨2024, 1, 22, 9, 0, 0, 0⟩ (by decide) (by decide) (by decide) (by decide)

/-- C3: for every successfully constructed `RecurringTransaction` (on a
valid datetime), next_occurrence is timestamp + 1 day for daily cadence,
timestamp + 7 days for weekly cadence, and for monthly cadence the same
day-of-month in the following month with December rolling over to
January of the next year; in every case next_occurrence is strictly
after timestamp. -/
theorem next_occurrence_spec (r : RecurringTransaction)
    (hwf : (Record.recurring r).wf) (hts : r.toTransaction.timestamp.Valid) :
    (r.frequency = "daily" →
      r.toTransaction.timestamp.addDays 1 = some r.next_occurrence) ∧
    (r.frequency = "weekly" →
      r.toTransaction.timestamp.addDays 7 = some r.next_occurrence) ∧
    (r.frequency = "monthly" →
      (r.toTransaction.timestamp.month < 12 →
        r.next_occurrence = { r.toTransaction.timestamp with
          month := r.toTransaction.timestamp.month + 1 }) ∧
      (r.toTransaction.timestamp.month = 12 →
        r.next_occurrence = { r.toTransaction.timestamp with
          year := r.toTransaction.timestamp.year + 1, month := 1 })) ∧
    r.toTransaction.timestamp.Lt r.next_occurrence := by
  obtain ⟨-, hf, hc⟩ := hwf
  simp only [List.mem_cons, List.mem_singleton, List.not_mem_nil, or_false] at hf
  rcases hf with hf | hf | hf
  · rw [hf] at hc ⊢
    rw [calculateNextOccurrence] at hc
    simp only [if_pos rfl] at hc
    refine ⟨fun _ => hc, fun h => absurd h (by decide), fun h => absurd h (by decide), ?_⟩
    exact Timestamp.addDays_lt (by omega) hc
  · rw [hf] at hc ⊢
    rw [calculateNextOccurrence] at hc
    simp only [if_neg (by decide : ¬ ("weekly" : String) = "daily"), if_pos rfl] at hc
    refine ⟨fun h => absurd h (by decide), fun _ => hc, fun h => absurd h (by decide), ?_⟩
    exact Timestamp.addDays_lt (by omega) hc
  · rw [hf] at hc ⊢
    rw [calculateNextOccurrence] at hc
    simp only [if_neg (by decide : ¬ ("monthly" : String) = "daily"),
      if_neg (by decide : ¬ ("monthly" : String) = "weekly"), if_pos rfl] at hc
    rw [Timestamp.replaceYM] at hc
    have hcond : 1 ≤ (monthRollover r.toTransaction.timestamp.year
          r.toTransaction.timestamp.month).2 ∧
        (monthRollover r.toTransaction.timestamp.year r.toTransaction.timestamp.month).2 ≤ 12 ∧
        1 ≤ (monthRollover r.toTransaction.timestamp.year r.toTransaction.timestamp.month).1 ∧
        (monthRollover r.toTransaction.timestamp.year r.toTransaction.timestamp.month).1 ≤ 9999 ∧
        r.toTransaction.timestamp.day ≤
          daysInMonth (monthRollover r.toTransaction.timestamp.year
            r.toTransaction.timestamp.month).1
            (monthRollover r.toTransaction.timestamp.year r.toTransaction.timestamp.month).2 := by
      by_contra hC
      rw [if_neg hC] at hc
      cases hc
    rw [if_pos hcond] at hc
    replace hc := Option.some.inj hc
    focus
      have hm12 : r.toTransaction.timestamp.month ≤ 12 := hts.2.2.2.1
      refine ⟨fun h => absurd h (by decide), fun h => absurd h (by decide),
        fun _ => ⟨fun hlt => ?_, fun heq => ?_⟩, ?_⟩
      · rw [← hc]
        unfold monthRollover
        rw [if_neg (by omega)]
      · rw [← hc]
        unfold monthRollover
        rw [if_pos (by omega)]
      · rw [← hc]
        unfold monthRollover
        by_cases h12 : r.toTransaction.timestamp.month + 1 > 12
        · rw [if_pos h12]
          unfold Timestamp.Lt
          left
          simp
        · rw [if_neg h12]
          unfold Timestamp.Lt
          right
          exact ⟨rfl, Or.inl (by simp)⟩

/-- Witness for C3: a monthly recurring transaction dated December 2024
has its next occurrence strictly after its timestamp (it falls on
2025-01-15). -/
theorem next_occurrence_spec_witness :
    Timestamp.Lt ⟨2024, 12, 15, 9, 0, 0, 0⟩
      (RecurringTransaction.mk
        ⟨50, "Netflix", "Entertainment", "expense", ⟨2024, 12, 15, 9, 0, 0, 0⟩⟩
        "monthly" ⟨2025, 1, 15, 9, 0, 0, 0⟩).next_occurrence :=
  (next_occurrence_spec
      ⟨⟨50, "Netflix", "Entertainment", "expense", ⟨2024, 12, 15, 9, 0, 0, 0⟩⟩,
        "monthly", ⟨2025, 1, 15, 9, 0, 0, 0⟩⟩
      (by decide) (by decide)).2.2.2

/-- C9: for a monthly recurring transaction whose timestamp day-of-month
does not exist in the following month, construction fails with the error
raised inside the date computation (no clamping to the last valid
day). -/
theorem monthly_short_month_raises (amount : ℚ)
    (description category transaction_type : String) (t now : Timestamp)
    (hA : 0 < amount) (hT : transaction_type ∈ ["income", "expense"])
    (hD : daysInMonth (monthRollover t.year t.month).1
      (monthRollover t.year t.month).2 < t.day) :
    RecurringTransaction.construct amount description category transaction_type
      "monthly" (some t) now = .error "next occurrence out of range" := by
  have hb : Transaction.construct amount description category transaction_type
      (some t) now = .ok ⟨amount, description, category, transaction_type, t⟩ := by
    unfold Transaction.construct
    rw [if_neg (not_le.mpr hA), if_neg (not_not_intro hT)]
    rfl
  have hc : calculateNextOccurrence "monthly" t = none := by
    rw [calculateNextOccurrence]
    simp only [if_neg (by decide : ¬ ("monthly" : String) = "daily"),
      if_neg (by decide : ¬ ("monthly" : String) = "weekly"), if_pos rfl]
    have hnc : ¬ (1 ≤ (monthRollover t.year t.month).2 ∧
        (monthRollover t.year t.month).2 ≤ 12 ∧
        1 ≤ (monthRollover t.year t.month).1 ∧
        (monthRollover t.year t.month).1 ≤ 9999 ∧
        t.day ≤ daysInMonth (monthRollover t.year t.month).1
          (monthRollover t.year t.month).2) := by
      intro hcond
      omega
    rw [Timestamp.replaceYM, if_neg hnc]
    simp
  simp only [RecurringTransaction.construct, hb,
    if_neg (not_not_intro
      (by decide : ("monthly" : String) ∈ ["daily", "weekly", "monthly"])), hc]

/-- Witness for C9: constructing a monthly recurring transaction dated
January 31, 2025 fails, since February 2025 has 28 days. -/
theorem monthly_short_month_raises_witness :
    (0 : ℚ) < 75 ∧ daysInMonth 2025 2 < 31 ∧
    RecurringTransaction.construct 75 "Gym" "Health" "expense" "monthly"
      (some ⟨2025, 1, 31, 8, 0, 0, 0⟩) ⟨2025, 1, 31, 8, 0, 0, 0⟩ =
      .error "next occurrence out of range" :=
  ⟨by decide, by decide,
    monthly_short_month_raises 75 "Gym" "Health" "expense"
      ⟨2025, 1, 31, 8, 0, 0, 0⟩ ⟨2025, 1, 31, 8, 0, 0, 0⟩
      (by decide) (by decide) (by decide)⟩

/-- Reconstruction inverts serialization: a well-formed record parsed
back from its own CSV row is rebuilt identically (same constructor
choice, same fields, recomputed next occurrence included). -/
theorem parseRow_to_csv_row {r : Record} (h : r.wf) : parseRow r.to_csv_row = .ok r := by
  cases r with
  | plain t =>
    obtain ⟨ha, hty⟩ := h
    have hb : Transaction.construct t.amount t.description t.category t.type
        (some t.timestamp) t.timestamp = .ok t := by
      unfold Transaction.construct
      rw [if_neg (not_le.mpr ha), if_neg (not_not_intro hty)]
      rfl
    simp only [Record.to_csv_row, Transaction.to_csv_row, parseRow, hb, Except.map]
  | recurring rec =>
    obtain ⟨⟨ha, hty⟩, hf, hc⟩ := h
    have hfne : rec.frequency ≠ "" := by
      intro he
      rw [he] at hf
      exact absurd hf (by decide)
    have hb : Transaction.construct rec.toTransaction.amount
        rec.toTransaction.description rec.toTransaction.category
        rec.toTransaction.type (some rec.toTransaction.timestamp)
        rec.toTransaction.timestamp = .ok rec.toTransaction := by
      unfold Transaction.construct
      rw [if_neg (not_le.mpr ha), if_neg (not_not_intro hty)]
      rfl
    simp only [Record.to_csv_row, Transaction.to_csv_row, List.cons_append,
      List.nil_append, parseRow]
    rw [if_pos hfne]
    simp only [RecurringTransaction.construct, hb, if_neg (not_not_intro hf), hc,
      Except.map]

/-- The load loop consumes a successfully parsed row by appending its
record to the accumulated list. -/
theorem loadRows_cons_ok {row : List Cell} {rest : List (List Cell)}
    {acc : List Record} {record : Record} (h : parseRow row = .ok record) :
    loadRows (row :: rest) acc = loadRows rest (acc ++ [record]) := by
  show (match parseRow row with
    | .ok record => loadRows rest (acc ++ [record])
    | .error _ => acc) = loadRows rest (acc ++ [record])
  rw [h]

/-- The load loop over the rows serialized from well-formed records
appends exactly those records in order. -/
theorem loadRows_all_wf {l : List Record} (h : ∀ r ∈ l, r.wf) :
    ∀ acc, loadRows (l.map Record.to_csv_row) acc = acc ++ l := by
  induction l with
  | nil => intro acc; simp [loadRows]
  | cons r rest ih =>
    intro acc
    rw [List.map_cons, loadRows_cons_ok (parseRow_to_csv_row (h r (List.mem_cons_self r rest)))]
    rw [ih (fun x hx => h x (List.mem_cons_of_mem r hx)) (acc ++ [r])]
    simp

/-- C1: persistence round-trip.  For every ledger whose records were
constructed successfully, saving all records to the CSV file and loading
that file back reconstructs the identical ordered sequence: same length,
and per position the same amount, description, category, kind,
frequency-if-recurring (a row is reconstructed as RecurringTransaction
exactly when it carries a non-empty trailing frequency field), and the
same timestamp (the textual ISO encoding is exact). -/
theorem save_load_round_trip (transactions : List Record)
    (h : ∀ r ∈ transactions, r.wf) :
    load_from_file (save_to_file transactions) = transactions := by
  unfold save_to_file load_from_file
  simpa using loadRows_all_wf h []

/-- Witness for C1: a two-record ledger (one plain, one monthly
recurring) survives the save/load round-trip unchanged. -/
theorem save_load_round_trip_witness :
    (∀ r ∈ ([Record.plain ⟨100, "Salary", "Income", "income", ⟨2024, 1, 15, 10, 30, 0, 0⟩⟩,
        Record.recurring ⟨⟨50, "Netflix", "Entertainment", "expense",
          ⟨2024, 12, 15, 9, 0, 0, 0⟩⟩, "monthly", ⟨2025, 1, 15, 9, 0, 0, 0⟩⟩] :
        List Record), r.wf) ∧
    load_from_file (save_to_file
        [Record.plain ⟨100, "Salary", "Income", "income", ⟨2024, 1, 15, 10, 30, 0, 0⟩⟩,
          Record.recurring ⟨⟨50, "Netflix", "Entertainment", "expense",
            ⟨2024, 12, 15, 9, 0, 0, 0⟩⟩, "monthly", ⟨2025, 1, 15, 9, 0, 0, 0⟩⟩]) =
      [Record.plain ⟨100, "Salary", "Income", "income", ⟨2024, 1, 15, 10, 30, 0, 0⟩⟩,
        Record.recurring ⟨⟨50, "Netflix", "Entertainment", "expense",
          ⟨2024, 12, 15, 9, 0, 0, 0⟩⟩, "monthly", ⟨2025, 1, 15, 9, 0, 0, 0⟩⟩] :=
  ⟨by decide, save_load_round_trip _ (by decide)⟩

end FinanceTracker
